import Mathlib

/-!
Verification development for the `ai-enabled-incident-alert` repository.

The repository is a single AWS Lambda with two code paths:
  * `src/lambda/src/app.py` — `lambda_handler`, which routes
    `POST /post-sms` requests to an SMS-ingestion pipeline (bedrock model
    call, JSON parse, DynamoDB `put_item`) and forwards every other event
    to the FastAPI/Mangum CRUD application;
  * `src/lambda/src/endpoints.py` — the CRUD endpoints over the DynamoDB
    table (`list_incidents`, `get_incident`, `delete_incident`,
    `update_status`, `create_incident`), with the record shape declared in
    `src/lambda/src/models.py`.

The embedding below models the DynamoDB table as an association list keyed
by `incident_id` (DynamoDB semantics: `put_item` is an unconditional
upsert by key, `get_item` a key lookup, `delete_item` a key removal,
`update_item` with `SET status` an in-place field update).  External
library calls that are not code of this repository — the bedrock
`invoke_model` call together with the unwrapping of its response envelope,
Python `json.loads` applied to the model text, `datetime.utcnow`, and the
possibility that `put_item` itself raises — are parameters of an
environment record `Env`, so theorems quantify over every behaviour of
those collaborators.
-/

namespace IncidentAlert

/-- JSON values, as produced by Python `json.loads`.  Numbers are modelled
as integers; no claim touches numeric payloads. -/
inductive Json where
  | null
  | bool (b : Bool)
  | num (n : Int)
  | str (s : String)
  | arr (elems : List Json)
  | obj (fields : List (String × Json))

/-- Whether a JSON value is an object (a Python `dict`). -/
def Json.isObj : Json → Bool
  | .obj _ => true
  | _ => false

/-- The Python type name of a decoded JSON value, used in the message of
the `AttributeError` raised when `.get` is called on a non-dict. -/
def jsonTypeName : Json → String
  | .null => "NoneType"
  | .bool _ => "bool"
  | .num _ => "int"
  | .str _ => "str"
  | .arr _ => "list"
  | .obj _ => "dict"

/-- First-match association-list lookup (Python `dict` access on the JSON
object decoded by `json.loads`, and `get_item` on the keyed table). -/
def assoc {α : Type} : List (String × α) → String → Option α
  | [], _ => none
  | (k, v) :: rest, key => if k = key then some v else assoc rest key

/-- Python `output.get(key, default)` on a dict (`app.py` lines 96-98). -/
def jsonGetD (fields : List (String × Json)) (key : String) (dflt : Json) : Json :=
  match assoc fields key with
  | some v => v
  | none => dflt

/-- Python `output.get(key, default)` on an arbitrary decoded JSON value:
on a dict it is defaulted lookup, on anything else it raises
`AttributeError` (in Python the message quotes the type name). -/
def dictGet (output : Json) (key : String) (dflt : Json) : Except String Json :=
  match output with
  | .obj fields => Except.ok (jsonGetD fields key dflt)
  | other => Except.error (jsonTypeName other ++ " object has no attribute get")

/-- The incident record assembled at `app.py` lines 94-103.  The three
fields read from the model output hold arbitrary JSON values, exactly as
`output.get` returns them; the other five are always strings. -/
structure Incident where
  incident_id : String
  incident_location : Json
  incident_type : Json
  priority : Json
  timestamp : String
  status : String
  source : String
  original_message : String

/-- The JSON rendering of an incident record, as `json.dumps` serialises
the Python dict of `app.py` lines 94-103 (also the item shape stored in
the table and returned by the CRUD endpoints). -/
def incidentToJson (i : Incident) : Json :=
  .obj [("incident_id", .str i.incident_id),
        ("incident_location", i.incident_location),
        ("incident_type", i.incident_type),
        ("priority", i.priority),
        ("timestamp", .str i.timestamp),
        ("status", .str i.status),
        ("source", .str i.source),
        ("original_message", .str i.original_message)]

/-- The Record Store: the DynamoDB table keyed by `incident_id`, one item
per key. -/
def Store : Type := List (String × Incident)

/-- DynamoDB `put_item`: unconditional upsert by key — replace the item
stored under the record's `incident_id`, or append if absent. -/
def putItem : Store → Incident → Store
  | [], i => [(i.incident_id, i)]
  | (k, v) :: rest, i =>
      if k = i.incident_id then (k, i) :: rest else (k, v) :: putItem rest i

/-- DynamoDB `delete_item`: remove the item stored under the key. -/
def eraseItem : Store → String → Store
  | [], _ => []
  | (k, v) :: rest, key =>
      if k = key then eraseItem rest key else (k, v) :: eraseItem rest key

/-- DynamoDB `update_item` with `SET #s = :status` (`endpoints.py` lines
122-127): replace only the `status` attribute of the item under the key.
(`update_status` checks existence first, so the upsert-on-absent-key
behaviour of DynamoDB is unreachable and not modelled.) -/
def setStatusInStore : Store → String → String → Store
  | [], _, _ => []
  | (k, v) :: rest, key, st =>
      if k = key then (k, { v with status := st }) :: rest
      else (k, v) :: setStatusInStore rest key st

/-- An inbound API-Gateway event, restricted to the fields
`lambda_handler` reads: `event.get('httpMethod')`, `event.get('path')`,
`event.get('requestContext', {}).get('requestId')`, and the form
parameters `parse_qs(event.get('body', ''))` (the `parse_qs` of the
Python standard library is applied outside the model; its output lists
are non-empty for every present key). -/
structure Event where
  httpMethod : Option String
  path : Option String
  requestId : Option String
  params : List (String × List String)

/-- Behaviour of the external collaborators on one invocation. -/
structure Env where
  /-- `bedrock.invoke_model` (app.py lines 71-80) together with the
  envelope unwrapping `json.loads(response['body'].read())` and
  `response_body['content'][0]['text']` (lines 83-84): an exception
  message, or the generated text. -/
  oracle : String → Except String String
  /-- Python `json.loads` applied to the stripped model text (line 89):
  the `JSONDecodeError` message, or the decoded value. -/
  jsonLoads : String → Except String Json
  /-- `datetime.utcnow().isoformat()` (line 99). -/
  now : String
  /-- Whether `table.put_item` (line 106) raises: the exception message,
  or success. -/
  putOk : Except String Unit

/-- An HTTP response as `lambda_handler` builds it: a status code and a
JSON body (the value passed to `json.dumps`). -/
structure Response where
  statusCode : Nat
  body : Json

/-- Python falsiness of the extracted `requestId` (`if not request_id`,
app.py line 43): missing, or the empty string. -/
def isFalsyId : Option String → Bool
  | none => true
  | some s => s = ""

/-- `params.get(key, [''])[0]` (app.py lines 52-53): first value of the
form field, `""` when the field is absent.  (`parse_qs` never maps a
present key to an empty list, so the `some []` case is unreachable.) -/
def getFirst (params : List (String × List String)) (key : String) : String :=
  match assoc params key with
  | some (v :: _) => v
  | _ => ""

/-- The fixed extraction-prompt template (app.py lines 56-63). -/
def buildPrompt (description : String) : String :=
  "Extract the following details from the incident description:\n" ++
  "- Incident Location\n" ++
  "- Incident Type\n" ++
  "- Priority (High/Medium/Low)\n" ++
  "Description: \"" ++ description ++ "\"\n" ++
  "Respond in JSON format with keys: incident_location, incident_type, priority."

/-- The 400 response of app.py lines 44-47. -/
def respMissingId : Response :=
  ⟨400, .obj [("error", .str "requestId missing in event")]⟩

/-- The 500 response of app.py lines 115-121, for a caught exception with
message `msg`. -/
def respFailure (msg : String) : Response :=
  ⟨500, .obj [("error", .str "Failed to process incident"), ("message", .str msg)]⟩

/-- The 200 response of app.py lines 109-112. -/
def respSuccess (i : Incident) : Response :=
  ⟨200, .obj [("message", .str "Incident processed"), ("incident", incidentToJson i)]⟩

/-- The body of the `try` block of `lambda_handler` (app.py lines 41-112):
either an uncaught exception message, or a response together with the
resulting store.  The store is written exactly once, by the final
`put_item`; every earlier failure leaves the argument store untouched. -/
def tryBody (env : Env) (store : Store) (e : Event) : Except String (Response × Store) :=
  if isFalsyId e.requestId then
    Except.ok (respMissingId, store)
  else
    let request_id := e.requestId.getD ""
    let description := getFirst e.params "Body"
    let contactno := getFirst e.params "From"
    let prompt := buildPrompt description
    match env.oracle prompt with
    | Except.error msg => Except.error msg
    | Except.ok raw =>
      let model_text := raw.trim
      match env.jsonLoads model_text with
      | Except.error emsg =>
          Except.error ("Model response is not valid JSON: " ++ emsg)
      | Except.ok output =>
        match dictGet output "incident_location" (.str "Unknown") with
        | Except.error msg => Except.error msg
        | Except.ok loc =>
          match dictGet output "incident_type" (.str "General") with
          | Except.error msg => Except.error msg
          | Except.ok ty =>
            match dictGet output "priority" (.str "Medium") with
            | Except.error msg => Except.error msg
            | Except.ok pr =>
              let incident : Incident :=
                ⟨request_id, loc, ty, pr, env.now, "Open", contactno, description⟩
              match env.putOk with
              | Except.error msg => Except.error msg
              | Except.ok _ =>
                  Except.ok (respSuccess incident, putItem store incident)

/-- The SMS branch of `lambda_handler` with its `except Exception`
boundary (app.py lines 40-121): a caught exception becomes the uniform
500 response and the store is unchanged (the write is the last step
inside the `try`). -/
def smsPipeline (env : Env) (store : Store) (e : Event) : Response × Store :=
  match tryBody env store e with
  | Except.ok rs => rs
  | Except.error msg => (respFailure msg, store)

/-- Outcome of one `lambda_handler` invocation: an SMS-branch response
with the resulting store, or the event forwarded to the Mangum/FastAPI
CRUD application (`asgi_handler(event, context)`, app.py line 123). -/
inductive HandlerResult where
  | smsResponse (r : Response) (s : Store)
  | forwarded (e : Event) (s : Store)

/-- `lambda_handler` (app.py lines 37-123): route to the SMS pipeline
exactly when `httpMethod == 'POST' and path == '/post-sms'`; otherwise
hand the event, unmodified, to the CRUD layer. -/
def lambda_handler (env : Env) (store : Store) (e : Event) : HandlerResult :=
  if e.httpMethod = some "POST" ∧ e.path = some "/post-sms" then
    let rs := smsPipeline env store e
    .smsResponse rs.1 rs.2
  else
    .forwarded e store

/-- FastAPI `HTTPException`: a status code and a detail string. -/
structure HTTPEx where
  status_code : Nat
  detail : String

/-- Python `str(e)` for a starlette `HTTPException`:
`"{status_code}: {detail}"`. -/
def strOfHTTPEx (e : HTTPEx) : String :=
  toString e.status_code ++ ": " ++ e.detail

/-- The request body of `PUT /v1/update-status` (models.py lines 14-16). -/
structure UpdateStatus where
  incident_id : String
  status : String

/-- The pydantic `Incident` model (models.py lines 3-11): all fields are
strings. -/
structure IncidentModel where
  incident_id : String
  incident_location : String
  incident_type : String
  priority : String
  timestamp : String
  status : String
  source : String
  original_message : String

/-- `incident.dict()` of the pydantic model, as the item stored by
`create_incident` (endpoints.py line 149-150). -/
def modelToItem (m : IncidentModel) : Incident :=
  ⟨m.incident_id, .str m.incident_location, .str m.incident_type,
   .str m.priority, m.timestamp, m.status, m.source, m.original_message⟩

/-- The `try` block of `get_incident` (endpoints.py lines 77-85): look the
item up; raise `HTTPException(404, "Incident with ID {id} not found")`
when absent.  (In the Python source the id is quoted inside the detail
string; the quotes are elided here.) -/
def get_incident_attempt (store : Store) (incident_id : String) : Except HTTPEx Json :=
  match assoc store incident_id with
  | some item => Except.ok (incidentToJson item)
  | none =>
      Except.error ⟨404, "Incident with ID " ++ incident_id ++ " not found"⟩

/-- `get_incident` (endpoints.py lines 76-90).  The blanket
`except Exception` at line 86 catches every exception raised inside the
`try` — including the `HTTPException(404)` raised at lines 81-84 — and
re-raises it as `HTTPException(500, "Failed to fetch incident: " + str(e))`. -/
def get_incident (store : Store) (incident_id : String) : Except HTTPEx Json :=
  match get_incident_attempt store incident_id with
  | Except.ok item => Except.ok item
  | Except.error e =>
      Except.error ⟨500, "Failed to fetch incident: " ++ strOfHTTPEx e⟩

/-- `delete_incident` (endpoints.py lines 93-107): 404 when the key is
absent, otherwise delete and return a message.  (Quotes around the id in
the Python detail string are elided.) -/
def delete_incident (store : Store) (incident_id : String) :
    (Except HTTPEx Json) × Store :=
  match assoc store incident_id with
  | none =>
      (Except.error ⟨404, "Incident " ++ incident_id ++ " not found"⟩, store)
  | some _ =>
      (Except.ok (.obj [("message",
          .str ("Incident " ++ incident_id ++ " deleted successfully"))]),
       eraseItem store incident_id)

/-- `update_status` (endpoints.py lines 110-129): 404 when the key is
absent; otherwise update only the `status` attribute and return a
message. -/
def update_status (store : Store) (status_data : UpdateStatus) :
    (Except HTTPEx Json) × Store :=
  match assoc store status_data.incident_id with
  | none =>
      (Except.error ⟨404,
          "Incident with ID " ++ status_data.incident_id ++ " not found"⟩,
       store)
  | some _ =>
      (Except.ok (.obj [("message",
          .str ("Incident " ++ status_data.incident_id ++
                " status updated to " ++ status_data.status))]),
       setStatusInStore store status_data.incident_id status_data.status)

/-- `create_incident` (endpoints.py lines 138-152): fill in a generated
id when the given one is falsy (empty), fill in the current timestamp
when absent, then `put_item` the dict.  `gen_id` stands for
`str(uuid.uuid4())` and `now` for `datetime.utcnow().isoformat()`. -/
def create_incident (gen_id : String) (now : String) (store : Store)
    (m : IncidentModel) : (Except HTTPEx Json) × Store :=
  let m1 := if m.incident_id = "" then { m with incident_id := gen_id } else m
  let m2 := if m1.timestamp = "" then { m1 with timestamp := now } else m1
  let item := modelToItem m2
  (Except.ok (incidentToJson item), putItem store item)

/-- The keys of a store (each key is one item's `incident_id`). -/
def storeKeys : Store → List String
  | [] => []
  | (k, _) :: rest => k :: storeKeys rest

/-- Key-uniqueness of the Record Store: at most one item per
`incident_id`. -/
def uniqueKeys (s : Store) : Prop := (storeKeys s).Nodup

/-- The incident record assembled at app.py lines 94-103 when the model
output decoded to the JSON object `fields`: request id, the three
defaulted extractions, the timestamp, `"Open"`, the `From` contact, and
the verbatim `Body` text. -/
def assembleIncident (rid : String) (fields : List (String × Json))
    (now contact msg : String) : Incident :=
  ⟨rid,
   jsonGetD fields "incident_location" (.str "Unknown"),
   jsonGetD fields "incident_type" (.str "General"),
   jsonGetD fields "priority" (.str "Medium"),
   now, "Open", contact, msg⟩

/-! ### Concrete fixtures used to instantiate the theorems -/

/-- An SMS-path event whose `requestContext` carries no `requestId`. -/
def evNoId : Event := ⟨some "POST", some "/post-sms", none, []⟩

/-- An SMS-path event carrying request id `req-1` and the form body of
the spec scenario. -/
def evFire : Event :=
  ⟨some "POST", some "/post-sms", some "req-1",
   [("Body", ["Fire at 5th and Main, please hurry"]), ("From", ["+15550001111"])]⟩

/-- A non-SMS event (a CRUD request forwarded to the FastAPI app). -/
def evList : Event := ⟨some "GET", some "/v1/incidents", none, []⟩

/-- The JSON object the oracle returns in the success scenario of the
spec. -/
def fieldsFire : List (String × Json) :=
  [("incident_location", .str "5th and Main"),
   ("incident_type", .str "Fire"),
   ("priority", .str "High")]

/-- The raw model text of the success scenario. -/
def rawFire : String :=
  "\x7b\"incident_location\": \"5th and Main\", \"incident_type\": \"Fire\", \"priority\": \"High\"\x7d"

/-- An environment whose oracle answers with the success-scenario JSON
and whose store write succeeds. -/
def envFire : Env :=
  ⟨fun _ => Except.ok rawFire,
   fun _ => Except.ok (Json.obj fieldsFire),
   "2026-01-01T00:00:00", Except.ok ()⟩

/-- An environment whose oracle call itself raises. -/
def envDown : Env :=
  ⟨fun _ => Except.error "Unable to locate credentials",
   fun _ => Except.error "Expecting value: line 1 column 1 (char 0)",
   "2026-01-01T00:00:00", Except.ok ()⟩

/-- An environment whose oracle returns prose that is not JSON. -/
def envChatty : Env :=
  ⟨fun _ => Except.ok "Sure! Here are the details you asked for.",
   fun _ => Except.error "Expecting value: line 1 column 1 (char 0)",
   "2026-01-01T00:00:00", Except.ok ()⟩

/-- The raw model text of the defaults scenario (only `incident_type`). -/
def rawFlood : String := "\x7b\"incident_type\": \"Flood\"\x7d"

/-- An environment whose oracle returns a JSON object containing only
`incident_type`. -/
def envFlood : Env :=
  ⟨fun _ => Except.ok rawFlood,
   fun _ => Except.ok (Json.obj [("incident_type", Json.str "Flood")]),
   "2026-01-01T00:00:00", Except.ok ()⟩

/-- A pre-existing record stored under key `req-1`. -/
def incOld : Incident :=
  ⟨"req-1", .str "Unknown", .str "General", .str "Medium",
   "2025-12-31T00:00:00", "Open", "+15550002222", "old message"⟩

/-- The record the ingestion pipeline assembles for `evFire` under
`envFire`. -/
def incFire : Incident :=
  assembleIncident "req-1" fieldsFire "2026-01-01T00:00:00" "+15550001111"
    "Fire at 5th and Main, please hurry"

/-- The record the ingestion pipeline assembles for `evFire` under
`envFlood` (two of the three extracted fields defaulted). -/
def incFlood : Incident :=
  assembleIncident "req-1" [("incident_type", Json.str "Flood")]
    "2026-01-01T00:00:00" "+15550001111" "Fire at 5th and Main, please hurry"

/-! ### Structural lemmas about the store operations -/

theorem not_mem_storeKeys_putItem (s : Store) (i : Incident) (k : String)
    (h1 : k ∉ storeKeys s) (h2 : k ≠ i.incident_id) :
    k ∉ storeKeys (putItem s i) := by
  induction s with
  | nil => simp [putItem, storeKeys, h2]
  | cons hd tl ih =>
      obtain ⟨k2, v⟩ := hd
      simp [storeKeys] at h1
      by_cases hk : k2 = i.incident_id
      · simp [putItem, hk, storeKeys]
        exact ⟨hk ▸ h1.1, h1.2⟩
      · simp [putItem, hk, storeKeys]
        exact ⟨h1.1, ih h1.2⟩

theorem uniqueKeys_putItem (s : Store) (i : Incident) (h : uniqueKeys s) :
    uniqueKeys (putItem s i) := by
  induction s with
  | nil => simp [putItem, uniqueKeys, storeKeys]
  | cons hd tl ih =>
      obtain ⟨k2, v⟩ := hd
      rw [uniqueKeys, storeKeys, List.nodup_cons] at h
      obtain ⟨hnotin, htl⟩ := h
      by_cases hk : k2 = i.incident_id
      · simp [putItem, hk, uniqueKeys, storeKeys, List.nodup_cons]
        exact ⟨hk ▸ hnotin, htl⟩
      · simp [putItem, hk, uniqueKeys, storeKeys, List.nodup_cons]
        exact ⟨not_mem_storeKeys_putItem tl i k2 hnotin hk, ih htl⟩

theorem assoc_putItem_self (s : Store) (i : Incident) :
    assoc (putItem s i) i.incident_id = some i := by
  induction s with
  | nil => simp [putItem, assoc]
  | cons hd tl ih =>
      obtain ⟨k2, v⟩ := hd
      by_cases hk : k2 = i.incident_id
      · simp [putItem, hk, assoc]
      · simp [putItem, hk, assoc, ih]

theorem not_mem_storeKeys_eraseItem (s : Store) (key k : String)
    (h1 : k ∉ storeKeys s) : k ∉ storeKeys (eraseItem s key) := by
  induction s with
  | nil => simp [eraseItem, storeKeys]
  | cons hd tl ih =>
      obtain ⟨k2, v⟩ := hd
      simp [storeKeys] at h1
      by_cases hk : k2 = key
      · simp [eraseItem, hk]
        exact ih h1.2
      · simp [eraseItem, hk, storeKeys]
        exact ⟨h1.1, ih h1.2⟩

theorem uniqueKeys_eraseItem (s : Store) (key : String) (h : uniqueKeys s) :
    uniqueKeys (eraseItem s key) := by
  induction s with
  | nil => simpa [eraseItem] using h
  | cons hd tl ih =>
      obtain ⟨k2, v⟩ := hd
      rw [uniqueKeys, storeKeys, List.nodup_cons] at h
      obtain ⟨hnotin, htl⟩ := h
      by_cases hk : k2 = key
      · simpa [eraseItem, hk] using ih htl
      · simp [eraseItem, hk, uniqueKeys, storeKeys, List.nodup_cons]
        exact ⟨not_mem_storeKeys_eraseItem tl key k2 hnotin, ih htl⟩

theorem storeKeys_setStatus (s : Store) (key st : String) :
    storeKeys (setStatusInStore s key st) = storeKeys s := by
  induction s with
  | nil => rfl
  | cons hd tl ih =>
      obtain ⟨k2, v⟩ := hd
      by_cases hk : k2 = key
      · simp [setStatusInStore, hk, storeKeys]
      · simp [setStatusInStore, hk, storeKeys]
        exact ih

theorem uniqueKeys_setStatus (s : Store) (key st : String) (h : uniqueKeys s) :
    uniqueKeys (setStatusInStore s key st) := by
  unfold uniqueKeys
  rw [storeKeys_setStatus]
  exact h

theorem assoc_setStatus_self (s : Store) (key st : String) (item : Incident)
    (h : assoc s key = some item) :
    assoc (setStatusInStore s key st) key = some { item with status := st } := by
  induction s with
  | nil => simp [assoc] at h
  | cons hd tl ih =>
      obtain ⟨k2, v⟩ := hd
      by_cases hk : k2 = key
      · simp [assoc, hk] at h
        simp [setStatusInStore, hk, assoc, h]
      · simp [assoc, hk] at h
        simp [setStatusInStore, hk, assoc]
        exact ih h

theorem assoc_setStatus_other (s : Store) (key st k : String) (hk : k ≠ key) :
    assoc (setStatusInStore s key st) k = assoc s k := by
  induction s with
  | nil => rfl
  | cons hd tl ih =>
      obtain ⟨k2, v⟩ := hd
      by_cases h2 : k2 = key
      · subst h2
        have h4 : ¬ k2 = k := fun hc => hk hc.symm
        simp [setStatusInStore, assoc, h4]
      · simp [setStatusInStore, h2, assoc, ih]

/-- Case analysis on a successful run of the `try` block: the only
returns inside the `try` are the 400 early return (store untouched) and
the 200 success return (store upserted with the assembled record). -/
theorem tryBody_ok_cases (env : Env) (store : Store) (e : Event)
    (r : Response) (s2 : Store)
    (h : tryBody env store e = Except.ok (r, s2)) :
    (r = respMissingId ∧ s2 = store) ∨
    ∃ i, r = respSuccess i ∧ s2 = putItem store i := by
  unfold tryBody at h
  cases hf : isFalsyId e.requestId with
  | true =>
      simp only [hf, if_true] at h
      simp only [Except.ok.injEq, Prod.mk.injEq] at h
      exact Or.inl ⟨h.1.symm, h.2.symm⟩
  | false =>
      simp only [hf, Bool.false_eq_true, if_false] at h
      split at h
      · simp at h
      · split at h
        · simp at h
        · split at h
          · simp at h
          · split at h
            · simp at h
            · split at h
              · simp at h
              · split at h
                · simp at h
                · simp only [Except.ok.injEq, Prod.mk.injEq] at h
                  exact Or.inr ⟨_, h.1.symm, h.2.symm⟩

theorem lambda_handler_sms (env : Env) (store : Store) (e : Event)
    (hm : e.httpMethod = some "POST") (hp : e.path = some "/post-sms") :
    lambda_handler env store e =
      .smsResponse (smsPipeline env store e).1 (smsPipeline env store e).2 := by
  unfold lambda_handler
  rw [if_pos ⟨hm, hp⟩]

theorem smsPipeline_error (env : Env) (store : Store) (e : Event) (msg : String)
    (hfail : tryBody env store e = Except.error msg) :
    smsPipeline env store e = (respFailure msg, store) := by
  unfold smsPipeline
  rw [hfail]

theorem tryBody_parse_error (env : Env) (store : Store) (e : Event)
    (raw emsg : String)
    (hr : isFalsyId e.requestId = false)
    (ho : env.oracle (buildPrompt (getFirst e.params "Body")) = Except.ok raw)
    (hj : env.jsonLoads raw.trim = Except.error emsg) :
    tryBody env store e =
      Except.error ("Model response is not valid JSON: " ++ emsg) := by
  unfold tryBody
  simp only [hr, Bool.false_eq_true, if_false, ho, hj]

theorem tryBody_obj_success (env : Env) (store : Store) (e : Event)
    (rid raw : String) (fields : List (String × Json))
    (hr : e.requestId = some rid) (hne : rid ≠ "")
    (ho : env.oracle (buildPrompt (getFirst e.params "Body")) = Except.ok raw)
    (hj : env.jsonLoads raw.trim = Except.ok (Json.obj fields))
    (hput : env.putOk = Except.ok ()) :
    tryBody env store e =
      Except.ok
        (respSuccess (assembleIncident rid fields env.now
            (getFirst e.params "From") (getFirst e.params "Body")),
         putItem store (assembleIncident rid fields env.now
            (getFirst e.params "From") (getFirst e.params "Body"))) := by
  have hf : isFalsyId (some rid) = false := by
    simp [isFalsyId, hne]
  unfold tryBody
  simp only [hr, hf, Bool.false_eq_true, if_false, Option.getD_some, ho, hj,
    hput, dictGet, assembleIncident]

/-- Claim C1: a `POST /post-sms` event whose request context carries no
`requestId` makes `lambda_handler` return HTTP 400 with the JSON body
`error: requestId missing in event`, leave the store unchanged, and
behave identically under every environment — in particular the oracle is
never consulted and nothing is written. -/
theorem post_sms_missing_request_id (env env2 : Env) (store : Store) (e : Event)
    (hm : e.httpMethod = some "POST") (hp : e.path = some "/post-sms")
    (hr : e.requestId = none) :
    lambda_handler env store e = .smsResponse respMissingId store ∧
    lambda_handler env store e = lambda_handler env2 store e := by
  have hpipe : ∀ env3 : Env, smsPipeline env3 store e = (respMissingId, store) := by
    intro env3
    unfold smsPipeline tryBody
    simp [hr, isFalsyId]
  constructor
  · rw [lambda_handler_sms env store e hm hp, hpipe env]
  · rw [lambda_handler_sms env store e hm hp,
        lambda_handler_sms env2 store e hm hp, hpipe env, hpipe env2]

/-- Witness for C1 at a concrete event and two distinct environments. -/
theorem post_sms_missing_request_id_witness :
    lambda_handler envFire [] evNoId = .smsResponse respMissingId [] ∧
    lambda_handler envFire [] evNoId = lambda_handler envDown [] evNoId :=
  post_sms_missing_request_id envFire envDown [] evNoId rfl rfl rfl

/-- Claim C2: on the SMS path with a request identifier present, every
failure between prompt construction and the store write is caught at the
pipeline boundary and converted into HTTP 500 with the uniform JSON body
`error: Failed to process incident, message: cause`, and the store is
unchanged — the write is the last step, so nothing is committed. -/
theorem sms_failure_uniform_500 (env : Env) (store : Store) (e : Event)
    (msg : String)
    (hm : e.httpMethod = some "POST") (hp : e.path = some "/post-sms")
    (hr : isFalsyId e.requestId = false)
    (hfail : tryBody env store e = Except.error msg) :
    lambda_handler env store e = .smsResponse (respFailure msg) store := by
  rw [lambda_handler_sms env store e hm hp, smsPipeline_error env store e msg hfail]

/-- Witness for C2: a concrete environment whose oracle call raises. -/
theorem sms_failure_uniform_500_witness :
    lambda_handler envDown [] evFire =
      .smsResponse (respFailure "Unable to locate credentials") [] :=
  sms_failure_uniform_500 envDown [] evFire "Unable to locate credentials"
    rfl rfl rfl rfl

/-- Claim C8: `lambda_handler` routes to the ingestion pipeline exactly
when the event has httpMethod POST and path `/post-sms`; every other
event is handed to the CRUD layer unmodified with the store untouched,
so the classification itself has no side effects. -/
theorem dispatch_routing (env : Env) (store : Store) (e : Event) :
    (e.httpMethod = some "POST" ∧ e.path = some "/post-sms" →
      lambda_handler env store e =
        .smsResponse (smsPipeline env store e).1 (smsPipeline env store e).2) ∧
    (¬ (e.httpMethod = some "POST" ∧ e.path = some "/post-sms") →
      lambda_handler env store e = .forwarded e store) := by
  constructor
  · intro h
    unfold lambda_handler
    rw [if_pos h]
  · intro h
    unfold lambda_handler
    rw [if_neg h]

/-- Witness for C8: one routed SMS event and one forwarded CRUD event. -/
theorem dispatch_routing_witness :
    (lambda_handler envFire [] evFire =
      .smsResponse (smsPipeline envFire [] evFire).1
        (smsPipeline envFire [] evFire).2) ∧
    (lambda_handler envFire [] evList = .forwarded evList []) :=
  ⟨(dispatch_routing envFire [] evFire).1 ⟨rfl, rfl⟩,
   (dispatch_routing envFire [] evList).2 (by decide)⟩

/-- Claim C10: on the SMS path `lambda_handler` never propagates an
exception: for every environment (any oracle answer, any parse result,
any store-write behaviour) and every request body, it returns a response
whose status code is 200, 400 or 500 and whose body is a JSON object. -/
theorem post_sms_total (env : Env) (store : Store) (e : Event)
    (hm : e.httpMethod = some "POST") (hp : e.path = some "/post-sms") :
    ∃ r s2, lambda_handler env store e = .smsResponse r s2 ∧
      (r.statusCode = 200 ∨ r.statusCode = 400 ∨ r.statusCode = 500) ∧
      r.body.isObj = true := by
  refine ⟨(smsPipeline env store e).1, (smsPipeline env store e).2,
    lambda_handler_sms env store e hm hp, ?_, ?_⟩
  · unfold smsPipeline
    cases htb : tryBody env store e with
    | ok rs =>
        rcases tryBody_ok_cases env store e rs.1 rs.2 (by rw [htb]) with
          ⟨h1, _⟩ | ⟨i, h1, _⟩
        · simp [h1, respMissingId]
        · simp [h1, respSuccess]
    | error msg => simp [respFailure]
  · unfold smsPipeline
    cases htb : tryBody env store e with
    | ok rs =>
        rcases tryBody_ok_cases env store e rs.1 rs.2 (by rw [htb]) with
          ⟨h1, _⟩ | ⟨i, h1, _⟩
        · simp [h1, respMissingId, Json.isObj]
        · simp [h1, respSuccess, Json.isObj]
    | error msg => simp [respFailure, Json.isObj]

/-- Witness for C10 at a concrete event with a non-JSON oracle answer. -/
theorem post_sms_total_witness :
    ∃ r s2, lambda_handler envChatty [] evFire = .smsResponse r s2 ∧
      (r.statusCode = 200 ∨ r.statusCode = 400 ∨ r.statusCode = 500) ∧
      r.body.isObj = true :=
  post_sms_total envChatty [] evFire rfl rfl

/-- Claim C3: when the oracle answers with text whose parse fails, the
pipeline returns HTTP 500 with the parse-failure message embedded in the
uniform error body, and no record is written (store unchanged). -/
theorem oracle_nonjson_500 (env : Env) (store : Store) (e : Event)
    (raw emsg : String)
    (hm : e.httpMethod = some "POST") (hp : e.path = some "/post-sms")
    (hr : isFalsyId e.requestId = false)
    (ho : env.oracle (buildPrompt (getFirst e.params "Body")) = Except.ok raw)
    (hj : env.jsonLoads raw.trim = Except.error emsg) :
    lambda_handler env store e =
      .smsResponse
        (respFailure ("Model response is not valid JSON: " ++ emsg)) store := by
  rw [lambda_handler_sms env store e hm hp,
      smsPipeline_error env store e _
        (tryBody_parse_error env store e raw emsg hr ho hj)]

/-- Witness for C3: the oracle answers with prose. -/
theorem oracle_nonjson_500_witness :
    lambda_handler envChatty [] evFire =
      .smsResponse
        (respFailure ("Model response is not valid JSON: " ++
          "Expecting value: line 1 column 1 (char 0)")) [] :=
  oracle_nonjson_500 envChatty [] evFire
    "Sure! Here are the details you asked for."
    "Expecting value: line 1 column 1 (char 0)" rfl rfl rfl rfl rfl

/-- Claim C5: a fully successful SMS ingestion returns HTTP 200 with body
`message: Incident processed, incident: record`, where the stored and
returned record carries the request identifier as `incident_id`, the
three fields read from the decoded oracle object (with their defaults),
status `Open`, the `From` field as `source`, and the `Body` field
verbatim as `original_message`; the store is upserted with exactly that
record. -/
theorem sms_success_response (env : Env) (store : Store) (e : Event)
    (rid raw : String) (fields : List (String × Json))
    (hm : e.httpMethod = some "POST") (hp : e.path = some "/post-sms")
    (hr : e.requestId = some rid) (hne : rid ≠ "")
    (ho : env.oracle (buildPrompt (getFirst e.params "Body")) = Except.ok raw)
    (hj : env.jsonLoads raw.trim = Except.ok (Json.obj fields))
    (hput : env.putOk = Except.ok ()) :
    lambda_handler env store e =
      .smsResponse
        (respSuccess (assembleIncident rid fields env.now
            (getFirst e.params "From") (getFirst e.params "Body")))
        (putItem store (assembleIncident rid fields env.now
            (getFirst e.params "From") (getFirst e.params "Body"))) := by
  rw [lambda_handler_sms env store e hm hp]
  unfold smsPipeline
  rw [tryBody_obj_success env store e rid raw fields hr hne ho hj hput]

/-- Witness for C5: the success scenario of the spec, evaluated. -/
theorem sms_success_response_witness :
    lambda_handler envFire [] evFire =
      .smsResponse (respSuccess incFire) (putItem [] incFire) :=
  sms_success_response envFire [] evFire "req-1" rawFire fieldsFire
    rfl rfl rfl (by decide) rfl rfl rfl

/-- Claim C4: when the oracle text decodes to any JSON object, the
assembled record reads `incident_location` with default `Unknown`,
`incident_type` with default `General` and `priority` with default
`Medium`, and the record is written even when keys are missing; no
schema validation beyond the decode is applied (the object `fields` is
arbitrary). -/
theorem sms_field_defaulting (env : Env) (store : Store) (e : Event)
    (rid raw : String) (fields : List (String × Json))
    (hm : e.httpMethod = some "POST") (hp : e.path = some "/post-sms")
    (hr : e.requestId = some rid) (hne : rid ≠ "")
    (ho : env.oracle (buildPrompt (getFirst e.params "Body")) = Except.ok raw)
    (hj : env.jsonLoads raw.trim = Except.ok (Json.obj fields))
    (hput : env.putOk = Except.ok ()) :
    ∃ inc : Incident,
      lambda_handler env store e =
        .smsResponse (respSuccess inc) (putItem store inc) ∧
      inc.incident_location = jsonGetD fields "incident_location" (.str "Unknown") ∧
      inc.incident_type = jsonGetD fields "incident_type" (.str "General") ∧
      inc.priority = jsonGetD fields "priority" (.str "Medium") ∧
      (assoc fields "incident_location" = none →
        inc.incident_location = .str "Unknown") ∧
      (assoc fields "incident_type" = none → inc.incident_type = .str "General") ∧
      (assoc fields "priority" = none → inc.priority = .str "Medium") := by
  refine ⟨assembleIncident rid fields env.now
      (getFirst e.params "From") (getFirst e.params "Body"), ?_,
      rfl, rfl, rfl, ?_, ?_, ?_⟩
  · rw [lambda_handler_sms env store e hm hp]
    unfold smsPipeline
    rw [tryBody_obj_success env store e rid raw fields hr hne ho hj hput]
  · intro h
    simp [assembleIncident, jsonGetD, h]
  · intro h
    simp [assembleIncident, jsonGetD, h]
  · intro h
    simp [assembleIncident, jsonGetD, h]

/-- Witness for C4: the defaults scenario of the spec — the oracle object
carries only `incident_type`, the other two fields default, and the
record is still written. -/
theorem sms_field_defaulting_witness :
    ∃ inc : Incident,
      lambda_handler envFlood [] evFire =
        .smsResponse (respSuccess inc) (putItem [] inc) ∧
      inc.incident_location =
        jsonGetD [("incident_type", Json.str "Flood")] "incident_location"
          (.str "Unknown") ∧
      inc.incident_type =
        jsonGetD [("incident_type", Json.str "Flood")] "incident_type"
          (.str "General") ∧
      inc.priority =
        jsonGetD [("incident_type", Json.str "Flood")] "priority"
          (.str "Medium") ∧
      (assoc [("incident_type", Json.str "Flood")] "incident_location" = none →
        inc.incident_location = .str "Unknown") ∧
      (assoc [("incident_type", Json.str "Flood")] "incident_type" = none →
        inc.incident_type = .str "General") ∧
      (assoc [("incident_type", Json.str "Flood")] "priority" = none →
        inc.priority = .str "Medium") :=
  sms_field_defaulting envFlood [] evFire "req-1" rawFlood
    [("incident_type", Json.str "Flood")] rfl rfl rfl (by decide) rfl rfl rfl

/-- Claim C6 fails on the code: get-by-id on an incident_id absent from
the store returns HTTP 500, not the claimed 404.  The
`HTTPException(404)` raised inside the `try` of `get_incident` is caught
by the blanket `except Exception` at endpoints.py line 86 and re-raised
as a 500 whose detail wraps the original 404, as this evaluation at a
concrete absent id shows.  (No state changes: the operation takes the
store and never writes it.) -/
theorem get_incident_absent_returns_500 :
    get_incident [] "inc-404" =
      Except.error
        ⟨500, "Failed to fetch incident: 404: Incident with ID inc-404 not found"⟩ :=
  rfl

/-- Claim C9: update-status on a present incident_id returns the success
message and sets only the status field — a subsequent get returns the
record with the new status and every other field unchanged, and every
other key of the store maps to the same record as before; on an absent
incident_id it returns HTTP 404 and leaves the store unchanged. -/
theorem update_status_frame (store : Store) (sd : UpdateStatus) :
    (∀ item : Incident, assoc store sd.incident_id = some item →
      (update_status store sd).1 =
        Except.ok (.obj [("message",
          .str ("Incident " ++ sd.incident_id ++ " status updated to " ++
            sd.status))]) ∧
      get_incident (update_status store sd).2 sd.incident_id =
        Except.ok (incidentToJson { item with status := sd.status }) ∧
      (∀ k, k ≠ sd.incident_id →
        assoc (update_status store sd).2 k = assoc store k)) ∧
    (assoc store sd.incident_id = none →
      (update_status store sd).1 =
        Except.error ⟨404,
          "Incident with ID " ++ sd.incident_id ++ " not found"⟩ ∧
      (update_status store sd).2 = store) := by
  constructor
  · intro item hit
    simp only [update_status, hit]
    refine ⟨by trivial, ?_, ?_⟩
    · show get_incident (setStatusInStore store sd.incident_id sd.status)
        sd.incident_id = _
      unfold get_incident get_incident_attempt
      rw [assoc_setStatus_self store sd.incident_id sd.status item hit]
    · intro k hk
      show assoc (setStatusInStore store sd.incident_id sd.status) k = assoc store k
      exact assoc_setStatus_other store sd.incident_id sd.status k hk
  · intro hnone
    simp only [update_status, hnone]
    exact ⟨by trivial, by trivial⟩

/-- Witness for C9: a present id gets its status updated in place and an
absent id yields 404. -/
theorem update_status_frame_witness :
    (update_status [("req-1", incOld)] ⟨"req-1", "Closed"⟩).1 =
      Except.ok (.obj [("message",
        .str ("Incident " ++ "req-1" ++ " status updated to " ++ "Closed"))]) ∧
    get_incident (update_status [("req-1", incOld)] ⟨"req-1", "Closed"⟩).2 "req-1" =
      Except.ok (incidentToJson { incOld with status := "Closed" }) ∧
    (update_status [("req-1", incOld)] ⟨"inc-x", "Closed"⟩).1 =
      Except.error ⟨404, "Incident with ID " ++ "inc-x" ++ " not found"⟩ :=
  ⟨((update_status_frame [("req-1", incOld)] ⟨"req-1", "Closed"⟩).1 incOld rfl).1,
   ((update_status_frame [("req-1", incOld)] ⟨"req-1", "Closed"⟩).1 incOld rfl).2.1,
   ((update_status_frame [("req-1", incOld)] ⟨"inc-x", "Closed"⟩).2 rfl).1⟩

/-- Counterexample to claim C7 as stated: the ingestion write is an
unconditional upsert, so an SMS request whose requestId equals an
incident_id already in the store replaces the stored record with a
different one — fields other than status of an existing record ARE
rewritten by this operation. -/
theorem ingest_overwrites_existing_record :
    assoc [("req-1", incOld)] "req-1" = some incOld ∧
    lambda_handler envFire [("req-1", incOld)] evFire =
      .smsResponse (respSuccess incFire) [("req-1", incFire)] ∧
    incFire.original_message ≠ incOld.original_message := by
  refine ⟨rfl, rfl, by decide⟩

/-- Claim C7 (amended): every operation — ingestion, create, delete,
update-status — preserves key-uniqueness of the store (at most one record
per incident_id), update-status mutates only the status field of the
targeted record and nothing else, and the ingestion/create writes are
unconditional upserts: a write keyed by an incident_id already present
replaces that record, last writer wins (rather than the claimed
never-replaced immutability). -/
theorem store_key_invariants :
    (∀ (env : Env) (store : Store) (e : Event) (r : Response) (s2 : Store),
      uniqueKeys store → lambda_handler env store e = .smsResponse r s2 →
      uniqueKeys s2) ∧
    (∀ (gen_id now : String) (store : Store) (m : IncidentModel),
      uniqueKeys store → uniqueKeys (create_incident gen_id now store m).2) ∧
    (∀ (store : Store) (incident_id : String),
      uniqueKeys store → uniqueKeys (delete_incident store incident_id).2) ∧
    (∀ (store : Store) (sd : UpdateStatus),
      uniqueKeys store → uniqueKeys (update_status store sd).2) ∧
    (∀ (store : Store) (sd : UpdateStatus) (item : Incident),
      assoc store sd.incident_id = some item →
      assoc (update_status store sd).2 sd.incident_id =
        some { item with status := sd.status } ∧
      ∀ k, k ≠ sd.incident_id →
        assoc (update_status store sd).2 k = assoc store k) ∧
    (∀ (store : Store) (i : Incident),
      assoc (putItem store i) i.incident_id = some i) := by
  refine ⟨?_, ?_, ?_, ?_, ?_, ?_⟩
  · intro env store e r s2 hu hh
    by_cases hc : e.httpMethod = some "POST" ∧ e.path = some "/post-sms"
    · unfold lambda_handler at hh
      rw [if_pos hc] at hh
      injection hh with h1 h2
      rw [← h2]
      unfold smsPipeline
      cases htb : tryBody env store e with
      | ok rs =>
          rcases tryBody_ok_cases env store e rs.1 rs.2 (by rw [htb]) with
            ⟨_, hs⟩ | ⟨i, _, hs⟩
          · show uniqueKeys rs.2
            rw [hs]
            exact hu
          · show uniqueKeys rs.2
            rw [hs]
            exact uniqueKeys_putItem store i hu
      | error msg => exact hu
    · unfold lambda_handler at hh
      rw [if_neg hc] at hh
      exact HandlerResult.noConfusion hh
  · intro gen_id now store m hu
    exact uniqueKeys_putItem store _ hu
  · intro store incident_id hu
    unfold delete_incident
    cases hit : assoc store incident_id with
    | none => exact hu
    | some v => exact uniqueKeys_eraseItem store incident_id hu
  · intro store sd hu
    unfold update_status
    cases hit : assoc store sd.incident_id with
    | none => exact hu
    | some v => exact uniqueKeys_setStatus store sd.incident_id sd.status hu
  · intro store sd item hit
    simp only [update_status, hit]
    constructor
    · exact assoc_setStatus_self store sd.incident_id sd.status item hit
    · intro k hk
      exact assoc_setStatus_other store sd.incident_id sd.status k hk
  · intro store i
    exact assoc_putItem_self store i

/-- Witness for the amended C7: uniqueness is preserved by a concrete
create on a singleton store, and a concrete upsert under an existing key
yields the new record. -/
theorem store_key_invariants_witness :
    uniqueKeys (create_incident "gen-1" "2026-01-01T00:00:00" [("req-1", incOld)]
      ⟨"", "Unknown", "General", "High", "", "Open", "+15550003333", "hi"⟩).2 ∧
    assoc (putItem [("req-1", incOld)] incFire) "req-1" = some incFire :=
  ⟨store_key_invariants.2.1 "gen-1" "2026-01-01T00:00:00" [("req-1", incOld)]
      ⟨"", "Unknown", "General", "High", "", "Open", "+15550003333", "hi"⟩
      (by simp [uniqueKeys, storeKeys]),
   store_key_invariants.2.2.2.2.2 [("req-1", incOld)] incFire⟩

end IncidentAlert
